import Mathlib

/-!
Verification of the eezyspaza-backend payment reconciliation subsystem.

This file gives a shallow embedding of the webhook handlers, redirect
handlers and helper functions of the repository, and proves or refutes
the frozen claims about them.

Conventions of the embedding:
- Firestore is modelled as association lists from document id to document.
- External collaborators (the HMAC-SHA256 primitive of the crypto module,
  the JSON parser for request bodies and metadata strings, the Yoco
  session-lookup API) are passed to the handlers as function parameters,
  exactly at the points where the source calls them.
- Each handler is a pure function from its inputs and the store to a pair
  of HTTP status code and resulting store.
-/

namespace Eezy

/-- Association-list lookup: first entry with the given key, mirroring a
Firestore document read by id. -/
def lookupDoc {α : Type} : List (String × α) → String → Option α
  | [], _ => none
  | kv :: rest, k => if kv.1 = k then some kv.2 else lookupDoc rest k

/-- Association-list write: overwrite the first entry with the given key, or
append a new entry, mirroring a Firestore document set by id. -/
def setDoc {α : Type} : List (String × α) → String → α → List (String × α)
  | [], k, v => [(k, v)]
  | kv :: rest, k, v => if kv.1 = k then (k, v) :: rest else kv :: setDoc rest k v

namespace Main

/-!
Model of src/server.js (second variant, version 2025-09-13), route
POST /webhook, lines 359-533, and its Firestore transaction.
-/

/-- A line item as parsed from the metadata items JSON string. A field is
none when it is absent on the JavaScript object; quantity holds the
parseInt result of the quantity field. -/
structure Item where
  id : Option String
  quantity : Option Int
deriving DecidableEq

/-- Order document: the fields of the orders collection the claims refer to.
The transaction write also sets payment ids, amount and timestamps, which no
claim mentions; status and items are the tracked fields. -/
structure Order where
  status : String
  items : List Item
deriving DecidableEq

/-- Product document. The stock field is none when the stored value is not a
number (the source checks typeof and isNaN before using it). -/
structure Product where
  stock : Option Int
deriving DecidableEq

/-- The transactional document store: orders and products collections. -/
structure Store where
  orders : List (String × Order)
  products : List (String × Product)
deriving DecidableEq

/-- A webhook event as produced by JSON.parse of the raw body: its type, the
payload id, and the two metadata fields the handler reads
(metadata.order_reference and metadata.items). -/
structure MainEvent where
  type : String
  payloadId : String
  orderReference : Option String
  itemsField : Option String
deriving DecidableEq

/-- Result of JSON.parse applied to the metadata items string: either an
array of items or some non-array JSON value. -/
inductive ItemsJson where
  | arr (items : List Item)
  | nonArray
deriving DecidableEq

/-- Lines 415-431 of src/server.js: the items metadata string is parsed with
a fallback to the empty list when the field is missing, when JSON.parse
throws, or when the parsed value is not an array. -/
def itemsFromMetadata (parseItems : String → Option ItemsJson) :
    Option String → List Item
  | none => []
  | some s =>
    match parseItems s with
    | none => []
    | some (ItemsJson.arr l) => l
    | some ItemsJson.nonArray => []

/-- Lines 443-451: an item contributes a product read operation only when its
id is truthy, its quantity is defined, and parseInt of the quantity is
positive; otherwise it is skipped. -/
def validOp (it : Item) : Option (String × Int) :=
  match it.id, it.quantity with
  | some i, some q => if i ≠ "" ∧ 0 < q then some (i, q) else none
  | _, _ => none

/-- The productReadOperations list built inside the transaction. -/
def productReadOps (items : List Item) : List (String × Int) :=
  items.filterMap validOp

/-- Line 498: the operation matching a product snapshot is found by
comparing document paths; the first matching operation wins. -/
def findOp : List (String × Int) → String → Option (String × Int)
  | [], _ => none
  | op :: rest, pid => if op.1 = pid then some op else findOp rest pid

/-- Lines 495-520, the write phase over the product snapshots read earlier:
a snapshot with no matching operation, a missing product document, or a
non-numeric stock value is skipped with a warning; otherwise the new stock
is current minus quantity sold, written back with no lower bound. -/
def applyStockWrites (ops : List (String × Int)) :
    List (String × Option Product) → List (String × Product) →
    List (String × Product)
  | [], products => products
  | (pid, snap) :: rest, products =>
    match findOp ops pid with
    | none => applyStockWrites ops rest products
    | some op =>
      match snap with
      | none => applyStockWrites ops rest products
      | some pdata =>
        match pdata.stock with
        | none => applyStockWrites ops rest products
        | some cur =>
          applyStockWrites ops rest (setDoc products pid { stock := some (cur - op.2) })

/-- Lines 435-522, the body of db.runTransaction: read the order document,
read every referenced product, then write the order with status paid
(creating the document when it does not exist) and write the decremented
stock values. All reads happen against the pre-transaction store, matching
the reads-before-writes ordering of the source. -/
def webhookTransaction (ref : String) (items : List Item) (s : Store) : Store :=
  let ops := productReadOps items
  let snaps := ops.map (fun op => (op.1, lookupDoc s.products op.1))
  { orders := setDoc s.orders ref { status := "paid", items := items },
    products := applyStockWrites ops snaps s.products }

/-- Lines 359-533, the POST /webhook handler. Parameters: hmacHex is the
hex HMAC-SHA256 of the crypto module (key, payload string), parseEvent is
JSON.parse on the raw body, parseItems is JSON.parse on the metadata items
string, secret is YOCO_WEBHOOK_SECRET, txOk models whether the Firestore
transaction commits or raises, sig is the yoco-signature header. The
timingSafeEqual call throws on buffers of unequal length, which the
surrounding try/catch turns into a 500. -/
def mainWebhook (hmacHex : String → String → String)
    (parseEvent : String → Option MainEvent)
    (parseItems : String → Option ItemsJson)
    (secret : Option String) (txOk : Bool)
    (sig : Option String) (body : String) (s : Store) : Nat × Store :=
  match secret with
  | none => (500, s)
  | some sec =>
    match sig with
    | none => (400, s)
    | some sigv =>
      let expected := hmacHex sec body
      if sigv.length ≠ expected.length then (500, s)
      else if sigv ≠ expected then (400, s)
      else
        match parseEvent body with
        | none => (400, s)
        | some ev =>
          if ev.type = "payment.succeeded" then
            match ev.orderReference with
            | none => (400, s)
            | some ref =>
              let items := itemsFromMetadata parseItems ev.itemsField
              if txOk then (200, webhookTransaction ref items s)
              else (500, s)
          else (200, s)

/-- Ordered observable events of one handler execution: a transaction
commit, or an HTTP response being sent. -/
inductive Event where
  | commit
  | respond (code : Nat)
deriving DecidableEq

/-- Event order of the src/server.js POST /webhook payment.succeeded path:
db.runTransaction is awaited, so on success the commit happens before
res.status(200) runs, and on failure the catch block sends 500 with no
commit. -/
def mainWebhookTrace (txOk : Bool) : List Event :=
  if txOk then [Event.commit, Event.respond 200] else [Event.respond 500]

/-- Event order of the src/unnamed/part_004 webhook receiver: the order
update returned by db.collection update is not awaited, so
res.sendStatus(200) runs first and the write commits later if at all. -/
def part004WebhookTrace (updateCommits : Bool) : List Event :=
  if updateCommits then [Event.respond 200, Event.commit] else [Event.respond 200]

/-- A trace returns a definitive 200 only after durable commit when every
200 response is preceded by a commit event. -/
def respondsOnlyAfterCommit (t : List Event) : Prop :=
  ∀ i, t.get? i = some (Event.respond 200) → ∃ j, j < i ∧ t.get? j = some Event.commit

end Main

namespace Backend

/-!
Model of src/backend/server.js (second variant, version 2025-09-17): the
updateOrderStatus and getOrderByReference helpers, the POST /yoco-webhook
receiver, and the GET success, cancel and failure redirect handlers.
-/

/-- Order document of this server variant: the order_reference and
yoco_checkout_id query fields and the status field. -/
structure BOrder where
  orderReference : Option String
  checkoutId : Option String
  status : String
deriving DecidableEq

/-- Product document. No route of this server variant ever reads or writes
the products collection; it is carried to state frame properties. -/
structure BProduct where
  stock : Int
deriving DecidableEq

/-- The document store of this server variant. -/
structure BStore where
  orders : List (String × BOrder)
  products : List (String × BProduct)
deriving DecidableEq

/-- The where query of updateOrderStatus, lines 308-314: the first order
document whose yoco_checkout_id equals the given checkout id. -/
def firstMatch : List (String × BOrder) → String → Option (String × BOrder)
  | [], _ => none
  | kv :: rest, cid =>
    if kv.2.checkoutId = some cid then some kv else firstMatch rest cid

/-- The update of snapshot.docs[0], lines 314-330: overwrite the status of
the first order matching the checkout id, leaving the rest unchanged. -/
def updateFirstMatch : List (String × BOrder) → String → String →
    List (String × BOrder)
  | [], _, _ => []
  | kv :: rest, cid, st =>
    if kv.2.checkoutId = some cid then (kv.1, { kv.2 with status := st }) :: rest
    else kv :: updateFirstMatch rest cid st

/-- Lines 306-340, updateOrderStatus(checkoutId, status): query orders by
yoco_checkout_id, update the first match to the given status (plus
timestamps not tracked here); when no order matches, do nothing. The
current status is never inspected. -/
def updateOrderStatus (s : BStore) (cid st : String) : BStore :=
  { s with orders := updateFirstMatch s.orders cid st }

/-- Lines 342-362, getOrderByReference: the first order document whose
order_reference equals the given reference. -/
def getOrderByReference : List (String × BOrder) → String → Option (String × BOrder)
  | [], _ => none
  | kv :: rest, r =>
    if kv.2.orderReference = some r then some kv else getOrderByReference rest r

/-- Result of the best-effort verifyYocoPayment call to the provider
(an external HTTP service, supplied as an oracle): the payment details
status when the call succeeds. -/
structure PDetails where
  status : String
deriving DecidableEq

/-- Payment data of a webhook event as read by the event handlers. -/
structure BPaymentData where
  checkoutId : Option String
  id : String
deriving DecidableEq

/-- A parsed webhook event of the /yoco-webhook route. -/
structure BEvent where
  type : String
  data : BPaymentData
deriving DecidableEq

/-- The expression paymentData.checkoutId or paymentData.id used by all
three event handlers; an absent or empty checkoutId is falsy in
JavaScript, so the payment id is used instead. -/
def effectiveCheckoutId (d : BPaymentData) : String :=
  match d.checkoutId with
  | some c => if c = "" then d.id else c
  | none => d.id

/-- Lines 943-958 with the handlers of lines 969-1052: the event switch of
the /yoco-webhook route. payment.succeeded marks the matched order
completed, payment.failed marks it failed, payment.cancelled marks it
cancelled, anything else is ignored. -/
def processYocoEvent (e : BEvent) (s : BStore) : BStore :=
  if e.type = "payment.succeeded" then
    updateOrderStatus s (effectiveCheckoutId e.data) "completed"
  else if e.type = "payment.failed" then
    updateOrderStatus s (effectiveCheckoutId e.data) "failed"
  else if e.type = "payment.cancelled" then
    updateOrderStatus s (effectiveCheckoutId e.data) "cancelled"
  else s

/-- Lines 916-966, the POST /yoco-webhook handler. The signature is checked
only when both the secret and the x-yoco-signature header are present
(plain hex HMAC over the raw body compared for string equality, 401 on
mismatch); when either is missing the handler logs a warning and processes
the event anyway. JSON.parse failure is caught as 500. -/
def yocoWebhook (hmacHex : String → String → String)
    (parseEvent : String → Option BEvent)
    (secret : Option String) (sig : Option String) (body : String)
    (s : BStore) : Nat × BStore :=
  match secret, sig with
  | some sec, some sigv =>
    if sigv ≠ hmacHex sec body then (401, s)
    else
      match parseEvent body with
      | none => (500, s)
      | some e => (200, processYocoEvent e s)
  | _, _ =>
    match parseEvent body with
    | none => (500, s)
    | some e => (200, processYocoEvent e s)

/-- Lines 1086-1117 of the GET /yoco-payment-success handler: the fallback
that looks the pending order up by order reference, verifies the session
with the provider, and on a successful or created status updates the order
to completed. Every other outcome leaves the store unchanged and just
renders the redirect. -/
def successViaReference (verify : String → Option PDetails)
    (orderReference : Option String) (s : BStore) : BStore :=
  match orderReference with
  | none => s
  | some r =>
    match getOrderByReference s.orders r with
    | none => s
    | some kv =>
      match kv.2.checkoutId with
      | none => s
      | some cid =>
        match verify cid with
        | none => s
        | some d =>
          if d.status = "successful" ∨ d.status = "created" then
            updateOrderStatus s cid "completed"
          else s

/-- Lines 1055-1131, the GET /yoco-payment-success handler: when a
checkoutId query parameter is present and the provider lookup reports the
payment successful or created, the matched order is updated to completed;
otherwise control falls through to the order-reference fallback. -/
def paymentSuccessHandler (verify : String → Option PDetails)
    (checkoutId orderReference : Option String) (s : BStore) : BStore :=
  match checkoutId with
  | none => successViaReference verify orderReference s
  | some cid =>
    match verify cid with
    | none => successViaReference verify orderReference s
    | some d =>
      if d.status = "successful" ∨ d.status = "created" then
        updateOrderStatus s cid "completed"
      else successViaReference verify orderReference s

/-- Lines 1133-1170, the GET /yoco-payment-cancel handler: when an order
reference is supplied and resolves to an order carrying a checkout id, that
order's status is set to cancelled. -/
def paymentCancelHandler (orderReference : Option String) (s : BStore) : BStore :=
  match orderReference with
  | none => s
  | some r =>
    match getOrderByReference s.orders r with
    | none => s
    | some kv =>
      match kv.2.checkoutId with
      | none => s
      | some cid => updateOrderStatus s cid "cancelled"

/-- Lines 1172-1221, the GET /yoco-payment-failure handler: same shape as
the cancel handler with status failed. -/
def paymentFailureHandler (orderReference : Option String) (s : BStore) : BStore :=
  match orderReference with
  | none => s
  | some r =>
    match getOrderByReference s.orders r with
    | none => s
    | some kv =>
      match kv.2.checkoutId with
      | none => s
      | some cid => updateOrderStatus s cid "failed"

end Backend

namespace Recv

/-!
Model of src/unnamed/part_001 (identical, where present, to the first
variant in src/backend/server.js), route POST /yoco-webhook-receiver: the
Yoco-style webhook signature verifier and the payload processing that
follows it.
-/

/-- Character-list test that the first list begins with the second,
modelling the startsWith of JavaScript strings. -/
def listBeginsWith : List Char → List Char → Bool
  | _, [] => true
  | [], _ :: _ => false
  | c :: cs, p :: ps => c = p && listBeginsWith cs ps

/-- startsWith on strings, computed on the underlying character lists. -/
def strBeginsWith (s p : String) : Bool :=
  listBeginsWith s.data p.data

/-- Drop the first n characters of a string. -/
def strDrop (s : String) (n : Nat) : String :=
  String.mk (s.data.drop n)

/-- Split a character list at every comma, modelling the split of
JavaScript strings on a one-character separator. -/
def splitComma : List Char → List (List Char)
  | [] => [[]]
  | c :: rest =>
    match splitComma rest with
    | [] => if c = ',' then [[], []] else [[c]]
    | h :: t => if c = ',' then [] :: h :: t else (c :: h) :: t

/-- The 6-bit value of one base64 alphabet character, none for characters
outside the alphabet (Node's base64 decoder skips those, padding
included). -/
def b64Val (c : Char) : Option Nat :=
  if 'A' ≤ c ∧ c ≤ 'Z' then some (c.toNat - 65)
  else if 'a' ≤ c ∧ c ≤ 'z' then some (c.toNat - 71)
  else if '0' ≤ c ∧ c ≤ '9' then some (c.toNat + 4)
  else if c = '+' then some 62
  else if c = '/' then some 63
  else none

/-- Pack a list of 6-bit values into bytes, four sextets to three bytes,
with a trailing group of two or three sextets yielding one or two bytes. -/
def b64Chunks : List Nat → List Nat
  | a :: b :: c :: d :: rest =>
    (a * 4 + b / 16) :: ((b % 16) * 16 + c / 4) :: ((c % 4) * 64 + d) :: b64Chunks rest
  | [a, b] => [a * 4 + b / 16]
  | [a, b, c] => [a * 4 + b / 16, (b % 16) * 16 + c / 4]
  | _ => []

/-- Buffer.from(s, base64): decode a base64 string to its byte list,
skipping characters outside the alphabet. -/
def base64Decode (s : String) : List Nat :=
  b64Chunks (s.data.filterMap b64Val)

/-- The longest run of decimal digits at the front of a character list. -/
def leadingDigits : List Char → List Char
  | [] => []
  | c :: rest => if c.isDigit then c :: leadingDigits rest else []

/-- Numeric value of a digit run, none when the run is empty. -/
def digitsVal (cs : List Char) : Option Nat :=
  match leadingDigits cs with
  | [] => none
  | ds => some (ds.foldl (fun acc c => acc * 10 + (c.toNat - 48)) 0)

/-- parseInt(s, 10): an optional sign followed by leading decimal digits;
none models the NaN result when no digits are found. -/
def parseIntJs (s : String) : Option Int :=
  match s.data with
  | '-' :: rest => (digitsVal rest).map (fun n => -(n : Int))
  | '+' :: rest => (digitsVal rest).map (fun n => (n : Int))
  | cs => (digitsVal cs).map (fun n => (n : Int))

/-- Lines 196-203: scan the comma-separated parts of the signature header
for the first one starting with the v1= tag and return the remainder. -/
def extractV1FromParts : List (List Char) → Option String
  | [] => none
  | p :: rest =>
    if listBeginsWith p ['v', '1', '='] then some (String.mk (p.drop 3))
    else extractV1FromParts rest

/-- Lines 190-208: extract the v1 signature from the webhook-signature
header, accepting the bare form v1 comma signature and the CSV form of
tag equals value pairs. -/
def extractV1 (header : String) : Option String :=
  if strBeginsWith header "v1," then some (strDrop header 3)
  else extractV1FromParts (splitComma header.data)

/-- Order document of this server variant (status only). -/
structure ROrder where
  status : String
deriving DecidableEq

/-- A parsed webhook event of this route: its type, the payload id, and the
firebase_order_id metadata field. -/
structure REvent where
  type : String
  paymentId : Option String
  firebaseOrderId : Option String
deriving DecidableEq

/-- JavaScript truthiness of an optional string field. -/
def truthy : Option String → Bool
  | none => false
  | some s => s ≠ ""

/-- Lines 226-297, the payload processing after a valid signature. The
payment.succeeded branch dereferences the undefined variable webhookData
at line 241 before the transaction starts, so it always throws a
ReferenceError that the catch block turns into a 500 with no store
mutation. The payment.failed and payment.cancelled branch updates the
order document to payment_failed; an update on a missing document rejects
and is caught as 500. -/
def receiverProcess (ev : REvent) (orders : List (String × ROrder)) :
    Nat × List (String × ROrder) :=
  if truthy ev.firebaseOrderId ∧ truthy ev.paymentId then
    if ev.type = "payment.succeeded" then (500, orders)
    else if ev.type = "payment.failed" ∨ ev.type = "payment.cancelled" then
      match ev.firebaseOrderId with
      | some oid =>
        match lookupDoc orders oid with
        | none => (500, orders)
        | some _ => (200, setDoc orders oid { status := "payment_failed" })
      | none => (200, orders)
    else (200, orders)
  else (200, orders)

/-- Lines 143-304, the POST /yoco-webhook-receiver handler. hmacB64 is the
base64 HMAC-SHA256 of the crypto module (key bytes, message). The checks
run in source order: secret configured and whsec-prefixed, the three
headers present, the timestamp within 180 seconds of now (a non-numeric
timestamp parses to NaN, whose comparison is false, so the check passes),
the raw body captured, the v1 signature extracted, the two signatures
base64-decoded and compared first by length then byte by byte in
timingSafeEqual. Only then is the payload processed. -/
def receiverWebhook (hmacB64 : List Nat → String → String)
    (secret : Option String) (now : Int)
    (wid ts sig rawBody : Option String)
    (ev : REvent) (orders : List (String × ROrder)) :
    Nat × List (String × ROrder) :=
  match secret with
  | none => (500, orders)
  | some sec =>
    if ¬ strBeginsWith sec "whsec_" then (500, orders)
    else
      match wid, ts, sig with
      | some widv, some tsv, some sigv =>
        if (match parseIntJs tsv with
            | some t => decide ((now - t).natAbs > 180)
            | none => false) then (400, orders)
        else
          match rawBody with
          | none => (500, orders)
          | some bodyv =>
            let signedContent := widv ++ "." ++ tsv ++ "." ++ bodyv
            let secretBytes := base64Decode (strDrop sec 6)
            let calculated := hmacB64 secretBytes signedContent
            match extractV1 sigv with
            | none => (400, orders)
            | some v1 =>
              let calcBuf := base64Decode calculated
              let headerBuf := base64Decode v1
              if calcBuf.length ≠ headerBuf.length then (403, orders)
              else if calcBuf ≠ headerBuf then (403, orders)
              else receiverProcess ev orders
      | _, _, _ => (400, orders)

end Recv

/-!
Concrete fixtures used by the closed theorems and witnesses below.
-/

/-- A constant hex HMAC oracle for concrete runs of the main webhook. -/
def hmacFix : String → String → String := fun _ _ => "sigv"

/-- An item for product P1 with quantity one. -/
def itemP1 : Main.Item := { id := some "P1", quantity := some 1 }

/-- An event parser returning a payment.succeeded event for the given order
reference, standing for JSON.parse on a fixed raw body. -/
def peFix (ref : String) : String → Option Main.MainEvent :=
  fun _ => some { type := "payment.succeeded", payloadId := "pay_1",
                  orderReference := some ref, itemsField := some "items" }

/-- An items parser returning the singleton P1 item array. -/
def piP1 : String → Option Main.ItemsJson :=
  fun _ => some (Main.ItemsJson.arr [itemP1])

/-- Store for the C1 run: a pending order and product P1 with stock 10. -/
def c1Store : Main.Store :=
  { orders := [("order1", { status := "pending", items := [] })],
    products := [("P1", { stock := some 10 })] }

/-- The store after the first delivery of the C1 event. -/
def c1After1 : Main.Store :=
  (Main.mainWebhook hmacFix (peFix "order1") piP1 (some "sec") true
    (some "sigv") "body" c1Store).2

/-- The store after the second, identical delivery. -/
def c1After2 : Main.Store :=
  (Main.mainWebhook hmacFix (peFix "order1") piP1 (some "sec") true
    (some "sigv") "body" c1After1).2

/-- Store for the C2 run: a pending order and product P1 with stock 0. -/
def c2Store : Main.Store :=
  { orders := [("order2", { status := "pending", items := [] })],
    products := [("P1", { stock := some 0 })] }

/-- The C2 run of the main webhook on a sold-out product. -/
def c2Run : Nat × Main.Store :=
  Main.mainWebhook hmacFix (peFix "order2") piP1 (some "sec") true
    (some "sigv") "body" c2Store

/-- The C9 run: the referenced order does not exist in the empty store. -/
def c9Run : Nat × Main.Store :=
  Main.mainWebhook hmacFix (peFix "orderX") piP1 (some "sec") true
    (some "sigv") "body" { orders := [], products := [] }

/-- Backend store with one pending order reachable both by reference r1 and
by checkout id c1, and one product. -/
def bFixStore : Backend.BStore :=
  { orders := [("doc1", { orderReference := some "r1", checkoutId := some "c1",
                          status := "pending" })],
    products := [("P1", { stock := 5 })] }

/-- A provider lookup oracle reporting every session as successful. -/
def verifySuccessful : String → Option Backend.PDetails :=
  fun _ => some { status := "successful" }

/-- Backend store whose only order is already paid. -/
def c5Store : Backend.BStore :=
  { orders := [("doc1", { orderReference := some "r1", checkoutId := some "c1",
                          status := "paid" })],
    products := [] }

/-- A payment.succeeded event for checkout c1 on the /yoco-webhook route. -/
def c4Event : Backend.BEvent :=
  { type := "payment.succeeded", data := { checkoutId := some "c1", id := "pay_1" } }

/-- An items parser on which JSON.parse always throws. -/
def piNone : String → Option Main.ItemsJson := fun _ => none

/-- A fixed event for concrete runs of the receiver webhook. -/
def rEvFix : Recv.REvent :=
  { type := "other.event", paymentId := some "pay_9", firebaseOrderId := some "ord_9" }

/-- A payment.succeeded event literal for the main webhook witnesses. -/
def evFixOrder1 : Main.MainEvent :=
  { type := "payment.succeeded", payloadId := "pay_1",
    orderReference := some "order1", itemsField := some "items" }

/-!
Helper lemmas shared by the claim theorems.
-/

theorem lookupDoc_setDoc {α : Type} (l : List (String × α)) (k : String) (v : α) :
    lookupDoc (setDoc l k v) k = some v := by
  induction l with
  | nil => simp [setDoc, lookupDoc]
  | cons kv rest ih =>
    by_cases hk : kv.1 = k
    · simp [setDoc, lookupDoc, hk]
    · simp [setDoc, lookupDoc, hk, ih]

/-- Reduction of the main webhook handler on a correctly signed
payment.succeeded event carrying an order reference: the result is the
transaction outcome on commit and a 500 with the untouched store on
transaction failure. -/
theorem mainWebhook_succeeded_eq (h : String → String → String)
    (pe : String → Option Main.MainEvent) (pi2 : String → Option Main.ItemsJson)
    (sec body ref : String) (ev : Main.MainEvent) (txOk : Bool) (s : Main.Store)
    (hev : pe body = some ev) (htype : ev.type = "payment.succeeded")
    (href : ev.orderReference = some ref) :
    Main.mainWebhook h pe pi2 (some sec) txOk (some (h sec body)) body s
      = if txOk then
          (200, Main.webhookTransaction ref (Main.itemsFromMetadata pi2 ev.itemsField) s)
        else (500, s) := by
  unfold Main.mainWebhook
  simp [hev, htype, href]

/-- When the items metadata is absent, unparseable, or parses to a
non-array, the fallback of lines 415-431 yields the empty item list. -/
theorem itemsFromMetadata_empty (pi2 : String → Option Main.ItemsJson)
    (itemsField : Option String)
    (hitems : itemsField = none ∨
      ∃ str, itemsField = some str ∧
        (pi2 str = none ∨ pi2 str = some Main.ItemsJson.nonArray)) :
    Main.itemsFromMetadata pi2 itemsField = [] := by
  rcases hitems with hnone | ⟨str, hsome, hp⟩
  · simp [hnone, Main.itemsFromMetadata]
  · rcases hp with hp | hp <;> simp [hsome, Main.itemsFromMetadata, hp]

/-- A transaction on an empty item list writes the order as paid and leaves
the products collection untouched. -/
theorem webhookTransaction_nil_items (ref : String) (s : Main.Store) :
    Main.webhookTransaction ref [] s
      = { orders := setDoc s.orders ref { status := "paid", items := [] },
          products := s.products } := rfl

theorem updateOrderStatus_products (s : Backend.BStore) (cid st : String) :
    (Backend.updateOrderStatus s cid st).products = s.products := rfl

theorem successViaReference_products (verify : String → Option Backend.PDetails)
    (r : Option String) (s : Backend.BStore) :
    (Backend.successViaReference verify r s).products = s.products := by
  unfold Backend.successViaReference
  repeat' split
  all_goals rfl

/-- The update of the first order matching a checkout id: the matched entry
keeps its position and document id and receives the new status, whatever
its previous status was. -/
theorem updateFirstMatch_get (l : List (String × Backend.BOrder))
    (cid st k : String) (o : Backend.BOrder)
    (hfirst : Backend.firstMatch l cid = some (k, o)) :
    ∃ i, (Backend.updateFirstMatch l cid st).get? i
            = some (k, { o with status := st }) ∧
         l.get? i = some (k, o) := by
  induction l with
  | nil => simp [Backend.firstMatch] at hfirst
  | cons kv rest ih =>
    by_cases hm : kv.2.checkoutId = some cid
    · unfold Backend.firstMatch at hfirst
      rw [if_pos hm] at hfirst
      injection hfirst with h1
      subst h1
      have hm2 : o.checkoutId = some cid := hm
      exact ⟨0, by simp [Backend.updateFirstMatch, hm2], by simp⟩
    · unfold Backend.firstMatch at hfirst
      rw [if_neg hm] at hfirst
      obtain ⟨i, h1, h2⟩ := ih hfirst
      refine ⟨i + 1, ?_, ?_⟩
      · unfold Backend.updateFirstMatch
        rw [if_neg hm]
        simpa using h1
      · simpa using h2

/-- Reduction of the receiver webhook when the secret is well formed, the
headers are present, the timestamp check passes and a v1 signature is
extracted: the outcome is decided by the comparison of the two
base64-decoded signature buffers. -/
theorem receiverWebhook_extractSome (hmacB64 : List Nat → String → String)
    (sec widv tsv sigv bodyv v1 : String) (now : Int) (ev : Recv.REvent)
    (orders : List (String × Recv.ROrder))
    (hsec : Recv.strBeginsWith sec "whsec_" = true)
    (hts : (match Recv.parseIntJs tsv with
            | some t => decide ((now - t).natAbs > 180)
            | none => false) = false)
    (hv1 : Recv.extractV1 sigv = some v1) :
    Recv.receiverWebhook hmacB64 (some sec) now (some widv) (some tsv)
        (some sigv) (some bodyv) ev orders
      = (if (Recv.base64Decode (hmacB64 (Recv.base64Decode (Recv.strDrop sec 6))
                (widv ++ "." ++ tsv ++ "." ++ bodyv))).length
              ≠ (Recv.base64Decode v1).length then (403, orders)
         else if Recv.base64Decode (hmacB64 (Recv.base64Decode (Recv.strDrop sec 6))
                (widv ++ "." ++ tsv ++ "." ++ bodyv))
              ≠ Recv.base64Decode v1 then (403, orders)
         else Recv.receiverProcess ev orders) := by
  simp only [Recv.receiverWebhook, hsec, hts, hv1, not_true, if_false,
    Bool.false_eq_true, ite_false]

/-- Reduction of the receiver webhook when no v1 signature can be extracted
from the header: the request is rejected with 400. -/
theorem receiverWebhook_extractNone (hmacB64 : List Nat → String → String)
    (sec widv tsv sigv bodyv : String) (now : Int) (ev : Recv.REvent)
    (orders : List (String × Recv.ROrder))
    (hsec : Recv.strBeginsWith sec "whsec_" = true)
    (hts : (match Recv.parseIntJs tsv with
            | some t => decide ((now - t).natAbs > 180)
            | none => false) = false)
    (hv1 : Recv.extractV1 sigv = none) :
    Recv.receiverWebhook hmacB64 (some sec) now (some widv) (some tsv)
        (some sigv) (some bodyv) ev orders = (400, orders) := by
  simp only [Recv.receiverWebhook, hsec, hts, hv1, not_true, if_false,
    Bool.false_eq_true, ite_false]

/-!
Claim theorems. Each claim of the specification is settled by exactly one
theorem below, with witnesses and counterexamples as separate closed
theorems.
-/

/-- C1: the claim says delivering the same verified payment.succeeded
webhook N times yields exactly one stock decrement and an already-paid
order is a no-op. On the code this fails: the transaction of src/server.js
lines 435-522 never inspects the current order status, so a second
delivery of the identical event decrements product P1 again, from 9 to 8,
even though the order is already paid after the first delivery. -/
theorem c1_double_decrement :
    lookupDoc c1After1.orders "order1" = some { status := "paid", items := [itemP1] } ∧
    lookupDoc c1After1.products "P1" = some { stock := some 9 } ∧
    lookupDoc c1After2.products "P1" = some { stock := some 8 } := by decide

/-- C2: the claim says a decrement that would drive stock below zero aborts
the whole transaction, leaving stock and order status unchanged. On the
code this fails: with product P1 at stock 0 and a verified event selling
one unit, the handler returns 200, writes stock minus one, and marks the
order paid, because the write phase of lines 508-517 has no negativity
check. -/
theorem c2_negative_stock_written :
    c2Run.1 = 200 ∧
    lookupDoc c2Run.2.products "P1" = some { stock := some (-1) } ∧
    lookupDoc c2Run.2.orders "order2" = some { status := "paid", items := [itemP1] } := by
  decide

/-- C9 counterexample: the claim says a verified payment.succeeded event
whose order reference matches no order fails the transaction with an
order-not-found error and never silently succeeds. On the code the run on
an empty store returns 200 and creates the order document with status
paid, because lines 481-486 take the set branch when the document does not
exist. -/
theorem c9_missing_order_silently_created :
    c9Run.1 = 200 ∧
    lookupDoc c9Run.2.orders "orderX" = some { status := "paid", items := [itemP1] } := by
  decide

/-- C9 amended: when a verified payment.succeeded event references an order
id with no existing document, the main webhook transaction creates that
order document with status paid and commits, and the handler returns 200;
no order-not-found error is ever surfaced. -/
theorem c9_missing_order_created_paid (h : String → String → String)
    (pe : String → Option Main.MainEvent) (pi2 : String → Option Main.ItemsJson)
    (sec body ref : String) (ev : Main.MainEvent) (s : Main.Store)
    (hev : pe body = some ev) (htype : ev.type = "payment.succeeded")
    (href : ev.orderReference = some ref)
    (habsent : lookupDoc s.orders ref = none) :
    Main.mainWebhook h pe pi2 (some sec) true (some (h sec body)) body s
      = (200, Main.webhookTransaction ref
          (Main.itemsFromMetadata pi2 ev.itemsField) s) ∧
    lookupDoc (Main.webhookTransaction ref
        (Main.itemsFromMetadata pi2 ev.itemsField) s).orders ref
      = some { status := "paid", items := Main.itemsFromMetadata pi2 ev.itemsField } := by
  constructor
  · simpa using mainWebhook_succeeded_eq h pe pi2 sec body ref ev true s hev htype href
  · exact lookupDoc_setDoc s.orders ref _

/-- Witness for C9: a concrete run of the amended statement on the empty
store, where the referenced order does not exist. -/
theorem c9_witness :
    lookupDoc ({ orders := [], products := [] } : Main.Store).orders "order1" = none ∧
    (Main.mainWebhook hmacFix (peFix "order1") piP1 (some "sec") true
        (some (hmacFix "sec" "body")) "body" { orders := [], products := [] }
      = (200, Main.webhookTransaction "order1"
          (Main.itemsFromMetadata piP1 evFixOrder1.itemsField)
          { orders := [], products := [] }) ∧
     lookupDoc (Main.webhookTransaction "order1"
          (Main.itemsFromMetadata piP1 evFixOrder1.itemsField)
          { orders := [], products := [] }).orders "order1"
       = some { status := "paid",
                items := Main.itemsFromMetadata piP1 evFixOrder1.itemsField }) :=
  ⟨rfl, c9_missing_order_created_paid hmacFix (peFix "order1") piP1 "sec" "body"
    "order1" evFixOrder1 { orders := [], products := [] } rfl rfl rfl rfl⟩

/-- C10: in the main webhook handler, a verified payment.succeeded event
carrying an order reference whose items metadata is absent, not parseable
as JSON, or not an array still commits the transaction marking the order
paid with an empty item list and returns 200, and the products collection
is left entirely unchanged: the stock update is silently skipped. -/
theorem c10_items_fallback_paid_stock_unchanged (h : String → String → String)
    (pe : String → Option Main.MainEvent) (pi2 : String → Option Main.ItemsJson)
    (sec body ref : String) (ev : Main.MainEvent) (s : Main.Store)
    (hev : pe body = some ev) (htype : ev.type = "payment.succeeded")
    (href : ev.orderReference = some ref)
    (hitems : ev.itemsField = none ∨
      ∃ str, ev.itemsField = some str ∧
        (pi2 str = none ∨ pi2 str = some Main.ItemsJson.nonArray)) :
    (Main.mainWebhook h pe pi2 (some sec) true (some (h sec body)) body s).1 = 200 ∧
    (Main.mainWebhook h pe pi2 (some sec) true (some (h sec body)) body s).2.products
      = s.products ∧
    lookupDoc (Main.mainWebhook h pe pi2 (some sec) true (some (h sec body))
        body s).2.orders ref = some { status := "paid", items := [] } := by
  have hred := mainWebhook_succeeded_eq h pe pi2 sec body ref ev true s hev htype href
  rw [itemsFromMetadata_empty pi2 ev.itemsField hitems] at hred
  simp only [if_true] at hred
  rw [hred]
  exact ⟨rfl, rfl, lookupDoc_setDoc s.orders ref _⟩

/-- Witness for C10: a concrete run whose items metadata string fails to
parse, on the C1 store; the order is paid, the response is 200, and
product P1 keeps its stock. -/
theorem c10_witness :
    piNone "items" = none ∧
    ((Main.mainWebhook hmacFix (peFix "order1") piNone (some "sec") true
        (some (hmacFix "sec" "body")) "body" c1Store).1 = 200 ∧
     (Main.mainWebhook hmacFix (peFix "order1") piNone (some "sec") true
        (some (hmacFix "sec" "body")) "body" c1Store).2.products = c1Store.products ∧
     lookupDoc (Main.mainWebhook hmacFix (peFix "order1") piNone (some "sec") true
        (some (hmacFix "sec" "body")) "body" c1Store).2.orders "order1"
       = some { status := "paid", items := [] }) :=
  ⟨rfl, c10_items_fallback_paid_stock_unchanged hmacFix (peFix "order1") piNone
    "sec" "body" "order1" evFixOrder1 c1Store rfl rfl rfl
    (Or.inr ⟨"items", rfl, Or.inl rfl⟩)⟩

/-- C3 counterexample: the claim says the success redirect handler never
mutates order state and repeated visits never change any order's status.
On the code one visit to the success redirect with a checkout id whose
provider lookup reports successful rewrites the matched pending order to
completed. -/
theorem c3_success_redirect_mutates_order :
    lookupDoc (Backend.paymentSuccessHandler verifySuccessful (some "c1") none
        bFixStore).orders "doc1"
      = some { orderReference := some "r1", checkoutId := some "c1",
               status := "completed" } ∧
    Backend.paymentSuccessHandler verifySuccessful (some "c1") none bFixStore
      ≠ bFixStore := by
  decide

/-- C3 amended: the success, cancel and failure redirect handlers never
touch the products collection (no visit can change any product's stock),
but they do mutate order status: after best-effort provider verification
the success handler sets the matched order to completed, the cancel
handler sets it to cancelled and the failure handler to failed. -/
theorem c3_redirect_products_frame (verify : String → Option Backend.PDetails)
    (cid r : Option String) (s : Backend.BStore) :
    (Backend.paymentSuccessHandler verify cid r s).products = s.products ∧
    (Backend.paymentCancelHandler r s).products = s.products ∧
    (Backend.paymentFailureHandler r s).products = s.products := by
  refine ⟨?_, ?_, ?_⟩
  · unfold Backend.paymentSuccessHandler
    repeat' split
    all_goals first | rfl | exact successViaReference_products verify r s
  · unfold Backend.paymentCancelHandler
    repeat' split
    all_goals rfl
  · unfold Backend.paymentFailureHandler
    repeat' split
    all_goals rfl

/-- C4 counterexample: the claim says a webhook request lacking the
signature header gets a 400 and no store mutation. On the /yoco-webhook
route of src/backend/server.js a request with no x-yoco-signature header
is processed anyway: the response is 200 and the matched pending order is
rewritten to completed. -/
theorem c4_yoco_webhook_missing_sig_processes :
    (Backend.yocoWebhook hmacFix (fun _ => some c4Event) (some "sec") none
        "body" bFixStore).1 = 200 ∧
    lookupDoc (Backend.yocoWebhook hmacFix (fun _ => some c4Event) (some "sec")
        none "body" bFixStore).2.orders "doc1"
      = some { orderReference := some "r1", checkoutId := some "c1",
               status := "completed" } := by
  decide

/-- C4 amended: on a missing signature header the POST /webhook handler of
src/server.js returns 400 with the store untouched, while the
POST /yoco-webhook handler of src/backend/server.js skips verification
entirely and processes the parsed event exactly as it would a verified
one, returning 200 (or 500 when the body fails to parse). -/
theorem c4_missing_signature_behavior (h : String → String → String)
    (pe : String → Option Main.MainEvent) (pi2 : String → Option Main.ItemsJson)
    (sec body : String) (txOk : Bool) (s : Main.Store)
    (bpe : String → Option Backend.BEvent) (bsec bbody : String)
    (bs : Backend.BStore) :
    Main.mainWebhook h pe pi2 (some sec) txOk none body s = (400, s) ∧
    Backend.yocoWebhook h bpe (some bsec) none bbody bs
      = (match bpe bbody with
         | none => (500, bs)
         | some e => (200, Backend.processYocoEvent e bs)) :=
  ⟨rfl, rfl⟩

/-- C5 counterexample: the claim says no operation of the system changes an
order whose status is already paid. On the code a visit to the cancel
redirect carrying the order reference of an already-paid order rewrites
that order's status to cancelled. -/
theorem c5_paid_order_cancelled_by_redirect :
    lookupDoc (Backend.paymentCancelHandler (some "r1") c5Store).orders "doc1"
      = some { orderReference := some "r1", checkoutId := some "c1",
               status := "cancelled" } := by
  decide

/-- C5 amended: order status transitions are unguarded: updateOrderStatus
overwrites the status of the first order matching the checkout id with the
requested value without ever inspecting the current status, so paid is not
terminal and backward transitions are possible. -/
theorem c5_update_order_status_unguarded (s : Backend.BStore) (cid st k : String)
    (o : Backend.BOrder)
    (hfirst : Backend.firstMatch s.orders cid = some (k, o)) :
    ∃ i, (Backend.updateOrderStatus s cid st).orders.get? i
            = some (k, { o with status := st }) ∧
         s.orders.get? i = some (k, o) :=
  updateFirstMatch_get s.orders cid st k o hfirst

/-- Witness for C5: the already-paid order of the c5 store is rewritten to
cancelled by updateOrderStatus. -/
theorem c5_witness :
    Backend.firstMatch c5Store.orders "c1"
      = some ("doc1", { orderReference := some "r1", checkoutId := some "c1",
                        status := "paid" }) ∧
    ∃ i, (Backend.updateOrderStatus c5Store "c1" "cancelled").orders.get? i
            = some ("doc1", { orderReference := some "r1", checkoutId := some "c1",
                              status := "cancelled" }) ∧
         c5Store.orders.get? i
            = some ("doc1", { orderReference := some "r1", checkoutId := some "c1",
                              status := "paid" }) :=
  ⟨by decide, c5_update_order_status_unguarded c5Store "c1" "cancelled" "doc1"
    { orderReference := some "r1", checkoutId := some "c1", status := "paid" }
    (by decide)⟩

/-- C8 counterexample: the claim says the handler never returns 200 before
the commit. In the part_004 webhook receiver the order update is not
awaited, so the 200 response is the first event of the trace and no commit
precedes it. -/
theorem c8_part004_responds_before_commit :
    (Main.part004WebhookTrace true).get? 0 = some (Main.Event.respond 200) ∧
    ¬ Main.respondsOnlyAfterCommit (Main.part004WebhookTrace true) := by
  refine ⟨rfl, fun hmono => ?_⟩
  obtain ⟨j, hj, _⟩ := hmono 0 rfl
  exact Nat.not_lt_zero j hj

/-- C8 amended: the main POST /webhook handler of src/server.js awaits the
transaction, so on a verified payment.succeeded event it returns 200
exactly when the transaction committed, returns 500 with the store
untouched when the transaction failed, and in both traces every 200
response is preceded by a commit; the part_004 variant violates this. -/
theorem c8_main_webhook_commit_before_200 (h : String → String → String)
    (pe : String → Option Main.MainEvent) (pi2 : String → Option Main.ItemsJson)
    (sec body ref : String) (ev : Main.MainEvent) (s : Main.Store)
    (hev : pe body = some ev) (htype : ev.type = "payment.succeeded")
    (href : ev.orderReference = some ref) :
    Main.mainWebhook h pe pi2 (some sec) true (some (h sec body)) body s
      = (200, Main.webhookTransaction ref
          (Main.itemsFromMetadata pi2 ev.itemsField) s) ∧
    Main.mainWebhook h pe pi2 (some sec) false (some (h sec body)) body s
      = (500, s) ∧
    Main.respondsOnlyAfterCommit (Main.mainWebhookTrace true) ∧
    Main.respondsOnlyAfterCommit (Main.mainWebhookTrace false) := by
  refine ⟨?_, ?_, ?_, ?_⟩
  · simpa using mainWebhook_succeeded_eq h pe pi2 sec body ref ev true s hev htype href
  · simpa using mainWebhook_succeeded_eq h pe pi2 sec body ref ev false s hev htype href
  · intro i hi
    match i with
    | 0 => exact absurd hi (by decide)
    | 1 => exact ⟨0, by omega, rfl⟩
    | n + 2 => simp [Main.mainWebhookTrace] at hi
  · intro i hi
    match i with
    | 0 => exact absurd hi (by decide)
    | n + 1 => simp [Main.mainWebhookTrace] at hi

/-- Witness for C8: the commit-before-200 statement at a concrete verified
payment.succeeded request on the c1 store. -/
theorem c8_witness :
    peFix "order1" "body" = some evFixOrder1 ∧
    (Main.mainWebhook hmacFix (peFix "order1") piP1 (some "sec") true
        (some (hmacFix "sec" "body")) "body" c1Store
      = (200, Main.webhookTransaction "order1"
          (Main.itemsFromMetadata piP1 evFixOrder1.itemsField) c1Store) ∧
     Main.mainWebhook hmacFix (peFix "order1") piP1 (some "sec") false
        (some (hmacFix "sec" "body")) "body" c1Store = (500, c1Store) ∧
     Main.respondsOnlyAfterCommit (Main.mainWebhookTrace true) ∧
     Main.respondsOnlyAfterCommit (Main.mainWebhookTrace false)) :=
  ⟨rfl, c8_main_webhook_commit_before_200 hmacFix (peFix "order1") piP1 "sec"
    "body" "order1" evFixOrder1 c1Store rfl rfl rfl⟩

/-- C6: the verifier of the yoco-webhook-receiver route computes the HMAC of
exactly the signed content delivery id, dot, timestamp, dot, raw body,
with the key obtained by stripping the whsec tag from the secret and
base64-decoding the remainder; it extracts the v1 entry of the signature
header in both supported forms, and, headers present and timestamp fresh,
it accepts and processes the payload exactly when the extracted value
base64-decodes to the digest bytes, responding 403 on any mismatch and 400
when no v1 entry can be extracted. -/
theorem c6_verifier_characterization (hmacB64 : List Nat → String → String)
    (sec widv tsv sigv bodyv : String) (now : Int) (ev : Recv.REvent)
    (orders : List (String × Recv.ROrder))
    (hsec : Recv.strBeginsWith sec "whsec_" = true)
    (hts : (match Recv.parseIntJs tsv with
            | some t => decide ((now - t).natAbs > 180)
            | none => false) = false) :
    (∀ v1, Recv.extractV1 sigv = some v1 →
        (Recv.base64Decode v1
            = Recv.base64Decode (hmacB64 (Recv.base64Decode (Recv.strDrop sec 6))
                (widv ++ "." ++ tsv ++ "." ++ bodyv)) →
          Recv.receiverWebhook hmacB64 (some sec) now (some widv) (some tsv)
              (some sigv) (some bodyv) ev orders
            = Recv.receiverProcess ev orders) ∧
        (Recv.base64Decode v1
            ≠ Recv.base64Decode (hmacB64 (Recv.base64Decode (Recv.strDrop sec 6))
                (widv ++ "." ++ tsv ++ "." ++ bodyv)) →
          Recv.receiverWebhook hmacB64 (some sec) now (some widv) (some tsv)
              (some sigv) (some bodyv) ev orders = (403, orders))) ∧
    (Recv.extractV1 sigv = none →
      Recv.receiverWebhook hmacB64 (some sec) now (some widv) (some tsv)
          (some sigv) (some bodyv) ev orders = (400, orders)) ∧
    Recv.extractV1 "v1,abc" = some "abc" ∧
    Recv.extractV1 "v1=abc,v2=def" = some "abc" := by
  refine ⟨?_, ?_, by decide, by decide⟩
  · intro v1 hv1
    have hred := receiverWebhook_extractSome hmacB64 sec widv tsv sigv bodyv v1
      now ev orders hsec hts hv1
    constructor
    · intro heq
      rw [hred, heq]
      simp
    · intro hne
      rw [hred]
      by_cases hl : (Recv.base64Decode (hmacB64 (Recv.base64Decode (Recv.strDrop sec 6))
          (widv ++ "." ++ tsv ++ "." ++ bodyv))).length = (Recv.base64Decode v1).length
      · have hne2 : Recv.base64Decode (hmacB64 (Recv.base64Decode (Recv.strDrop sec 6))
            (widv ++ "." ++ tsv ++ "." ++ bodyv)) ≠ Recv.base64Decode v1 :=
          fun hcontra => hne hcontra.symm
        simp [hl, hne2]
      · simp [hl]
  · intro hnone
    exact receiverWebhook_extractNone hmacB64 sec widv tsv sigv bodyv now ev
      orders hsec hts hnone

/-- Witness for C6: a concrete accepting run in which the extracted v1
value decodes to the same byte as the computed digest. -/
theorem c6_witness :
    Recv.strBeginsWith "whsec_AAAA" "whsec_" = true ∧
    Recv.receiverWebhook (fun _ _ => "QQ==") (some "whsec_AAAA") 5 (some "wid")
        (some "5") (some "v1,QQ==") (some "b") rEvFix []
      = Recv.receiverProcess rEvFix [] :=
  ⟨by decide,
    ((c6_verifier_characterization (fun _ _ => "QQ==") "whsec_AAAA" "wid" "5"
        "v1,QQ==" "b" 5 rEvFix [] (by decide) (by decide)).1 "QQ=="
      (by decide)).1 (by decide)⟩

/-- C7: a webhook request to the yoco-webhook-receiver route whose
timestamp header parses to a value more than 180 seconds away from the
current time is rejected with 400 before any signature verification or
payload processing, and the store is returned unchanged. -/
theorem c7_timestamp_tolerance (hmacB64 : List Nat → String → String)
    (sec widv tsv sigv bodyv : String) (now t : Int) (ev : Recv.REvent)
    (orders : List (String × Recv.ROrder))
    (hsec : Recv.strBeginsWith sec "whsec_" = true)
    (hparse : Recv.parseIntJs tsv = some t)
    (hfar : (now - t).natAbs > 180) :
    Recv.receiverWebhook hmacB64 (some sec) now (some widv) (some tsv)
        (some sigv) (some bodyv) ev orders = (400, orders) := by
  unfold Recv.receiverWebhook
  simp [hsec, hparse, hfar]

/-- Witness for C7: a concrete request 300 seconds older than now is
rejected with 400 and the store is unchanged. -/
theorem c7_witness :
    Recv.parseIntJs "1000" = some 1000 ∧
    ((1300 - 1000 : Int).natAbs > 180) ∧
    Recv.receiverWebhook (fun _ _ => "QQ==") (some "whsec_AAAA") 1300 (some "wid")
        (some "1000") (some "v1,QQ==") (some "b") rEvFix [] = (400, []) :=
  ⟨by decide, by decide,
    c7_timestamp_tolerance (fun _ _ => "QQ==") "whsec_AAAA" "wid" "1000"
      "v1,QQ==" "b" 1300 1000 rEvFix [] (by decide) (by decide) (by decide)⟩

end Eezy
